import Mathlib

/-!
Shallow embedding of `src/generate_cybersecurity_templates.py`.

The script is a four-stage, strictly sequential pipeline over the
filesystem: it creates a directory per phase, writes three artifacts per
phase (a .docx document, an .xlsx dashboard workbook, a .csv data file),
writes a summary CSV plus an executive-summary document, and zips the
output tree.  We model the filesystem as an explicit record of directories
and (path, content) files, paths as lists of components, file contents as
strings, and each stage as a pure function on that state.  `datetime.now()`
is modelled by a timestamp parameter threaded through a run; `time.sleep`,
`tqdm` progress bars and `print` calls have no filesystem effect and are
omitted.  File sizes are modelled as content lengths.
-/

set_option maxRecDepth 20000

namespace CyberTemplates

/-- A spreadsheet cell value: the script only ever writes strings and ints. -/
inductive Cell where
  | str (s : String)
  | int (n : Int)
deriving DecidableEq, Repr

/-- The `BASE_FOLDER` constant of the configuration section. -/
def BASE_FOLDER : String := "Cybersecurity_Templates_&_Dashboards"

/-- The `PHASES` list of the configuration section. -/
def PHASES : List String :=
  [ "Phase_1_Governance_Risk_SOC",
    "Phase_2_Technical_Controls_Monitoring",
    "Phase_3_Threat_Intel_Automation",
    "Phase_4_Compliance_Audit",
    "Phase_5_Awareness_Reporting" ]

/-- The `SAMPLE_DATA` control-record table, header row first. -/
def SAMPLE_DATA : List (List String) :=
  [ ["Control ID", "Description", "Owner", "Status", "Last Reviewed"],
    ["CTRL-001", "Firewall configuration and rule audit", "Network Team", "Active", "2025-10-01"],
    ["CTRL-002", "User Access Review (Quarterly)", "IT Security", "In Progress", "2025-09-15"],
    ["CTRL-003", "Database Encryption Validation", "DBA", "Completed", "2025-10-20"],
    ["CTRL-004", "Vulnerability Scan Report", "SOC Team", "Completed", "2025-10-22"],
    ["CTRL-005", "Incident Response Plan Drill", "CISO Office", "Planned", "2025-11-01"] ]

/-- The `TREND_DATA` compliance-trend table, header row first. -/
def TREND_DATA : List (List Cell) :=
  [ [.str "Month", .str "Compliance %"],
    [.str "June", .int 72],
    [.str "July", .int 76],
    [.str "August", .int 81],
    [.str "September", .int 85],
    [.str "October", .int 88],
    [.str "November", .int 92] ]

/-! ## CSV writing and parsing

`csv.writer` with the default dialect: fields are separated by `,`,
rows are terminated by `"\r\n"`, and a field is quoted (with `"` doubled)
exactly when it contains a delimiter, quote char, or line-break character
(QUOTE_MINIMAL). -/

/-- Does a field need quoting under QUOTE_MINIMAL? -/
def needsQuote (s : String) : Bool :=
  s.toList.any (fun c => c = ',' || c = '"' || c = '\r' || c = '\n')

/-- Render one CSV field, quoting and doubling quote characters if needed. -/
def csvField (s : String) : String :=
  if needsQuote s then
    "\"" ++ String.mk (s.toList.flatMap (fun c => if c = '"' then ['"', '"'] else [c])) ++ "\""
  else s

/-- Render one CSV row terminated by CRLF, as `csv.writer.writerow`. -/
def csvLine (r : List String) : String :=
  String.intercalate "," (r.map csvField) ++ "\r\n"

/-- Render a table, as `csv.writer.writerows`. -/
def csvRender (rows : List (List String)) : String :=
  String.join (rows.map csvLine)

/-- State of the CSV reading automaton. -/
structure CsvState where
  rows : List (List String)
  cur : List String
  field : List Char
  inQ : Bool
  afterQ : Bool
deriving Repr

/-- One step of a standard CSV reader: handles quoted fields, doubled
quotes inside quoted fields, `,` separators and CRLF / LF row ends. -/
def csvStep (st : CsvState) (c : Char) : CsvState :=
  if st.inQ then
    if c = '"' then { st with inQ := false, afterQ := true }
    else { st with field := st.field ++ [c] }
  else if st.afterQ && c = '"' then
    { st with field := st.field ++ ['"'], inQ := true, afterQ := false }
  else if c = ',' then
    { st with cur := st.cur ++ [String.mk st.field], field := [], afterQ := false }
  else if c = '\n' then
    { st with rows := st.rows ++ [st.cur ++ [String.mk st.field]],
              cur := [], field := [], afterQ := false }
  else if c = '\r' then
    { st with afterQ := false }
  else if c = '"' && st.field = [] && !st.afterQ then
    { st with inQ := true }
  else
    { st with field := st.field ++ [c], afterQ := false }

/-- Parse a CSV document into its rows. -/
def csvParse (s : String) : List (List String) :=
  let st := s.toList.foldl csvStep ⟨[], [], [], false, false⟩
  if st.cur = [] && st.field = [] then st.rows
  else st.rows ++ [st.cur ++ [String.mk st.field]]

/-! ## Filesystem model -/

/-- A path as a list of components (`os.path.join` with `/`). -/
abbrev FPath := List String

/-- The filesystem: a list of known directories and of (path, content)
files, both in creation order. -/
structure FS where
  dirs : List FPath
  files : List (FPath × String)
deriving DecidableEq, Repr

/-- The empty filesystem. -/
def FS.empty : FS := ⟨[], []⟩

/-- Model of `os.makedirs(p, exist_ok=True)`: create every missing ancestor of `p`
and `p` itself. -/
def FS.mkdirp (fs : FS) (p : FPath) : FS :=
  let ds := (List.range p.length).foldl
    (fun ds i =>
      let q := p.take (i + 1)
      if ds.contains q then ds else ds ++ [q])
    fs.dirs
  { fs with dirs := ds }

/-- Model of `open(p, "w")` followed by writing `c`: overwrite if present, else
append a new file entry. -/
def FS.write (fs : FS) (p : FPath) (c : String) : FS :=
  if fs.files.any (fun e => e.1 = p) then
    { fs with files := fs.files.map (fun e => if e.1 = p then (p, c) else e) }
  else
    { fs with files := fs.files ++ [(p, c)] }

/-- Content of the file at `p`, if any. -/
def FS.lookupFile (fs : FS) (p : FPath) : Option String :=
  (fs.files.find? (fun e => e.1 = p)).map Prod.snd

/-- The (name, content) pairs of the files directly inside directory `d`,
in creation order. -/
def FS.filesIn (fs : FS) (d : FPath) : List (String × String) :=
  fs.files.filterMap (fun e =>
    if e.1.dropLast = d then e.1.getLast?.map (fun n => (n, e.2)) else none)

/-- The immediate subdirectories of `d`, in creation order. -/
def FS.childDirs (fs : FS) (d : FPath) : List FPath :=
  fs.dirs.filter (fun q => q ≠ [] && q.dropLast = d)

/-- Fuelled top-down depth-first traversal, as `os.walk`. -/
def FS.walkAux (fs : FS) : Nat → FPath → List FPath
  | 0, _ => []
  | fuel + 1, d => d :: (fs.childDirs d).flatMap (fs.walkAux fuel)

/-- Model of `os.walk(root)`: the directories of the tree rooted at `root`,
root first. -/
def FS.walk (fs : FS) (root : FPath) : List FPath :=
  fs.walkAux (fs.dirs.length + 1) root

/-! ## Workbook model (openpyxl)

A workbook is a list of sheets; a sheet has a name, appended rows, the
column widths set through `ws.column_dimensions`, and the charts added
with their anchor cells.  A `CellRange` models `openpyxl.chart.Reference`
(when `max_col` is omitted it defaults to `min_col`, and `max_col`/
`max_row` default to the given minima exactly as in the script's calls). -/

/-- A rectangular cell range on a named sheet (`openpyxl` `Reference`). -/
structure CellRange where
  sheet : String
  minCol : Nat
  minRow : Nat
  maxCol : Nat
  maxRow : Nat
deriving DecidableEq, Repr

/-- The three chart classes the script instantiates. -/
inductive ChartKind where
  | pieChart
  | barChart
  | lineChart
deriving DecidableEq, Repr

/-- A chart: kind, data range (`add_data` with `titles_from_data=True`),
category range (`set_categories`), title, optional y-axis title. -/
structure Chart where
  kind : ChartKind
  data : CellRange
  categories : CellRange
  title : String
  yAxisTitle : Option String
deriving DecidableEq, Repr

/-- A chart placed on a sheet at an anchor cell (`ws.add_chart(c, a)`). -/
structure AnchoredChart where
  chart : Chart
  anchor : String
deriving DecidableEq, Repr

/-- A worksheet. -/
structure Sheet where
  name : String
  rows : List (List Cell)
  colWidths : List Nat
  charts : List AnchoredChart
deriving DecidableEq, Repr

/-- Model of `len(str(cell.value)) if cell.value else 0`: falsy values (`None`
is never written, `0` and `""` are falsy) count as width 0. -/
def cellLen : Cell → Nat
  | .str s => if s = "" then 0 else s.length
  | .int n => if n = 0 then 0 else (toString n).length

/-- The auto-size loop over `ws.columns`: for each column, the maximal
`cellLen` plus 2. -/
def autoWidths (rows : List (List Cell)) : List Nat :=
  rows.transpose.map (fun col => (col.map cellLen).foldl max 0 + 2)

/-- Occurrence counts of each value, keyed in order of first appearance
(the insertion order of the pandas hash table). -/
def tally (xs : List String) : List (String × Nat) :=
  xs.foldl
    (fun acc x =>
      if acc.any (fun p => p.1 = x) then
        acc.map (fun p => if p.1 = x then (p.1, p.2 + 1) else p)
      else acc ++ [(x, 1)])
    []

/-- Insertion of a pair into a count-descending list, strictly after
every pair of greater-or-equal count. -/
def insertDesc (p : String × Nat) : List (String × Nat) → List (String × Nat)
  | [] => [p]
  | q :: rest => if q.2 < p.2 then p :: q :: rest else q :: insertDesc p rest

/-- Sort by count, descending, ties in reverse list order. -/
def sortDescByCount : List (String × Nat) → List (String × Nat)
  | [] => []
  | p :: rest => insertDesc p (sortDescByCount rest)

/-- Model of `pd.Series(xs).value_counts()`: counts per distinct value, most
frequent first.  pandas sorts ascending (stably, for arrays this short)
and reverses, so ties come out in reverse first-appearance order; this
sort produces exactly that order. -/
def value_counts (xs : List String) : List (String × Nat) :=
  sortDescByCount (tally xs)

/-- The `Status` column of the control rows (`[r[3] for r in SAMPLE_DATA[1:]]`). -/
def statuses : List String :=
  SAMPLE_DATA.tail.map (fun r => r.getD 3 "")

/-- The rows of the status-count DataFrame, columns `Status`, `Count`. -/
def statusCounts : List (String × Nat) := value_counts statuses

/-- Sheet 1, "Controls": the sample rows verbatim, auto-sized columns. -/
def controlsSheet : Sheet :=
  let rows := SAMPLE_DATA.map (fun r => r.map Cell.str)
  { name := "Controls", rows := rows, colWidths := autoWidths rows, charts := [] }

/-- The data reference of both status charts:
`Reference(ws2, min_col=2, min_row=1, max_row=len(df)+1)`. -/
def statusDataRef : CellRange :=
  ⟨"Status Summary", 2, 1, 2, statusCounts.length + 1⟩

/-- The category reference of both status charts:
`Reference(ws2, min_col=1, min_row=2, max_row=len(df)+1)`. -/
def statusLabelsRef : CellRange :=
  ⟨"Status Summary", 1, 2, 1, statusCounts.length + 1⟩

/-- Sheet 2, "Status Summary": header plus one (status, count) row per
distinct status, a pie chart at D2 and a bar chart at D20. -/
def statusSummarySheet : Sheet :=
  { name := "Status Summary",
    rows := [Cell.str "Status", Cell.str "Count"] ::
      statusCounts.map (fun p => [Cell.str p.1, Cell.int p.2]),
    colWidths := [],
    charts :=
      [ ⟨⟨.pieChart, statusDataRef, statusLabelsRef,
          "Control Status Distribution", none⟩, "D2"⟩,
        ⟨⟨.barChart, statusDataRef, statusLabelsRef,
          "Control Status by Count", none⟩, "D20"⟩ ] }

/-- The data reference of the trend chart:
`Reference(ws3, min_col=2, min_row=1, max_row=len(TREND_DATA))`. -/
def trendDataRef : CellRange :=
  ⟨"Compliance Trend", 2, 1, 2, TREND_DATA.length⟩

/-- The category reference of the trend chart:
`Reference(ws3, min_col=1, min_row=2, max_row=len(TREND_DATA))`. -/
def trendLabelsRef : CellRange :=
  ⟨"Compliance Trend", 1, 2, 1, TREND_DATA.length⟩

/-- Sheet 3, "Compliance Trend": the trend rows and a line chart at D4. -/
def complianceTrendSheet : Sheet :=
  { name := "Compliance Trend",
    rows := TREND_DATA,
    colWidths := [],
    charts :=
      [ ⟨⟨.lineChart, trendDataRef, trendLabelsRef,
          "Monthly Compliance Trend", some "Compliance (%)"⟩, "D4"⟩ ] }

/-- The dashboard workbook built inside the per-phase loop.  The loop
variable is passed through for faithfulness to the source, where the
workbook is rebuilt on every iteration; its construction never reads it. -/
def phaseWorkbook (phase : String) : List Sheet :=
  let _ := phase
  [controlsSheet, statusSummarySheet, complianceTrendSheet]

/-! ## Document model (python-docx) and renderings -/

/-- A block of a .docx document. -/
inductive DocBlock where
  | heading (text : String) (level : Nat)
  | para (text : String)
  | table (rows : List (List String))
deriving DecidableEq, Repr

/-- The per-phase template document: heading, two fixed paragraphs, the
phase name with underscores replaced by spaces, and the generation
timestamp. -/
def phaseDoc (phase ts : String) : List DocBlock :=
  [ .heading "Cybersecurity Phase Template" 0,
    .para ("This document provides a structured cybersecurity implementation template for this phase. " ++
      "It includes objectives, responsibilities, and key controls."),
    .para ("Phase: " ++ phase.replace "_" " "),
    .para ("Generated on: " ++ ts) ]

/-- Serialize one document block to the byte stream of the model. -/
def renderBlock : DocBlock → String
  | .heading t l => "H" ++ toString l ++ ":" ++ t ++ "\n"
  | .para t => "P:" ++ t ++ "\n"
  | .table rows =>
    "T:" ++ String.join (rows.map (fun r => String.intercalate "|" r ++ ";")) ++ "\n"

/-- Serialize a document (`doc.save`); sizes are modelled as the length
of this rendering. -/
def renderDoc (blocks : List DocBlock) : String :=
  (blocks.map renderBlock).foldl (· ++ ·) ""

/-- Serialize a cell to the workbook byte-stream model. -/
def renderCell : Cell → String
  | .str s => s
  | .int n => toString n

/-- Serialize a cell range. -/
def renderRange (r : CellRange) : String :=
  r.sheet ++ "!" ++ toString r.minCol ++ "." ++ toString r.minRow ++ "." ++
    toString r.maxCol ++ "." ++ toString r.maxRow

/-- Serialize an anchored chart. -/
def renderChart (c : AnchoredChart) : String :=
  (match c.chart.kind with
    | .pieChart => "pie"
    | .barChart => "bar"
    | .lineChart => "line") ++
  "[" ++ renderRange c.chart.data ++ "][" ++ renderRange c.chart.categories ++ "]" ++
  c.chart.title ++ (c.chart.yAxisTitle.getD "") ++ "@" ++ c.anchor

/-- Serialize one sheet. -/
def renderSheet (s : Sheet) : String :=
  "[" ++ s.name ++ "]" ++
  String.join (s.rows.map (fun r => String.intercalate "," (r.map renderCell) ++ "\n")) ++
  String.intercalate "," (s.colWidths.map toString) ++
  String.join (s.charts.map renderChart)

/-- Serialize a workbook (`wb.save`); sizes are modelled as the length
of this rendering. -/
def renderWorkbook (wb : List Sheet) : String :=
  String.join (wb.map renderSheet)

/-! ## Stage 1: `create_phase_folders` and Stage 2: `generate_phase_files` -/

/-- Stage 1: one directory per phase plus `Supporting_Files`. -/
def create_phase_folders (fs : FS) : FS :=
  (PHASES.foldl (fun a phase => a.mkdirp [BASE_FOLDER, phase]) fs).mkdirp
    [BASE_FOLDER, "Supporting_Files"]

/-- Path of the per-phase document. -/
def docxPath (phase : String) : FPath :=
  [BASE_FOLDER, phase, phase ++ "_Template.docx"]

/-- Path of the per-phase dashboard workbook. -/
def xlsxPath (phase : String) : FPath :=
  [BASE_FOLDER, phase, phase ++ "_Dashboard.xlsx"]

/-- Path of the per-phase CSV. -/
def csvPath (phase : String) : FPath :=
  [BASE_FOLDER, phase, phase ++ "_Data.csv"]

/-- The CSV artifact content: `csv.writer(f).writerows(SAMPLE_DATA)`. -/
def phaseCsvContent : String := csvRender SAMPLE_DATA

/-- Stage 2: for each phase, in order, write the document, the workbook
and the CSV.  `datetime.now()` is the timestamp parameter `ts`; the
trailing `time.sleep(0.4)` has no filesystem effect. -/
def generate_phase_files (fs : FS) (ts : String) : FS :=
  PHASES.foldl
    (fun a phase =>
      (((a.write (docxPath phase) (renderDoc (phaseDoc phase ts))).write
        (xlsxPath phase) (renderWorkbook (phaseWorkbook phase))).write
        (csvPath phase) phaseCsvContent))
    fs

/-! ## Stage 3: `generate_summary_report` -/

/-- The `os.sep`-joined path string, as seen by `"Phase_" in root`. -/
def pathStr (p : FPath) : String := String.intercalate "/" p

/-- Is `pat` a prefix of `s`? -/
def isPrefixChars : List Char → List Char → Bool
  | [], _ => true
  | _ :: _, [] => false
  | a :: as, b :: bs => a = b && isPrefixChars as bs

/-- Substring containment on character lists (Python's `pat in s`). -/
def containsChars (pat : List Char) : List Char → Bool
  | [] => isPrefixChars pat []
  | b :: bs => isPrefixChars pat (b :: bs) || containsChars pat bs

/-- Python's `round` on a rational: nearest integer, ties to even. -/
def roundHalfEven (q : ℚ) : ℤ :=
  let f := q.floor
  let r := q - (f : ℚ)
  if r < 1 / 2 then f
  else if 1 / 2 < r then f + 1
  else if f % 2 = 0 then f else f + 1

/-- Model of `round(x, 2)` on a rational. -/
def round2 (q : ℚ) : ℚ := (roundHalfEven (q * 100) : ℚ) / 100

/-- One row of the summary DataFrame. -/
structure SummaryRow where
  phase : String
  filesN : Nat
  totalSizeKB : ℚ
  lastUpdated : String
deriving DecidableEq, Repr

/-- Total size of the files of a directory, in kilobytes
(`sum(os.path.getsize(...)) / 1024`, with sizes modelled as content
lengths). -/
def dirSizeKB (fs : FS) (d : FPath) : ℚ :=
  (((fs.filesIn d).map (fun e => (e.2.length : ℚ))).sum) / 1024

/-- The summary rows: walk the tree from the base folder and keep every
directory that has files and whose path contains `"Phase_"`, recording
its basename, file count, rounded size and the current timestamp. -/
def summaryRows (fs : FS) (ts : String) : List SummaryRow :=
  (fs.walk [BASE_FOLDER]).filterMap (fun d =>
    let inDir := fs.filesIn d
    if inDir.length ≠ 0 && containsChars "Phase_".toList (pathStr d).toList then
      some { phase := (d.getLast?).getD "",
             filesN := inDir.length,
             totalSizeKB := round2 (dirSizeKB fs d),
             lastUpdated := ts }
    else none)

/-- Decimal rendering of a rounded kilobyte value (the model of how
pandas prints the float `round(x, 2)`): an integer part, then `.0`, or
one digit, or two digits. -/
def renderKB (q : ℚ) : String :=
  let n := (q * 100).floor.toNat
  let ip := n / 100
  let fr := n % 100
  if fr = 0 then toString ip ++ ".0"
  else if fr % 10 = 0 then toString ip ++ "." ++ toString (fr / 10)
  else if fr < 10 then toString ip ++ ".0" ++ toString fr
  else toString ip ++ "." ++ toString fr

/-- One rendered line of the summary CSV. -/
def summaryCsvLine (r : SummaryRow) : String :=
  String.intercalate "," [r.phase, toString r.filesN, renderKB r.totalSizeKB, r.lastUpdated] ++ "\n"

/-- Model of `df_summary.to_csv(path, index=False)`: header then one line per row,
LF-terminated. -/
def renderSummaryCsv (rows : List SummaryRow) : String :=
  "Phase,Files,Total_Size_KB,Last_Updated\n" ++ String.join (rows.map summaryCsvLine)

/-- Path of the aggregate summary CSV. -/
def summaryCsvPath : FPath := [BASE_FOLDER, "Supporting_Files", "export_summary.csv"]

/-- Path of the executive summary document. -/
def execDocPath : FPath := [BASE_FOLDER, "Cybersecurity_Executive_Summary.docx"]

/-- The executive summary document: headings, narrative paragraphs, the
phase-overview table rendered from the summary rows, and four fixed
recommendation bullets. -/
def execDoc (rows : List SummaryRow) (ts : String) : List DocBlock :=
  [ .heading "Cybersecurity Program – Executive Summary" 0,
    .para ("Report generated on: " ++ ts),
    .para "This document provides an overview of all cybersecurity implementation phases, key metrics, and control status distribution.",
    .heading "Phase Overview" 1,
    .table (["Phase", "Files", "Total Size (KB)", "Last Updated"] ::
      rows.map (fun r => [r.phase, toString r.filesN, renderKB r.totalSizeKB, r.lastUpdated])),
    .para "\nOverall compliance shows steady improvement across all phases, with most controls marked as \x27Completed\x27 or \x27Active\x27.",
    .heading "Recommendations" 1,
    .para "- Continue quarterly user access reviews.",
    .para "- Increase automation coverage for vulnerability management.",
    .para "- Schedule an annual review of SOC incident response procedures.",
    .para "- Maintain awareness and training programs for new staff." ]

/-- Stage 3: compute the summary rows from the current tree, then write
the aggregate CSV and the executive summary document. -/
def generate_summary_report (fs : FS) (ts : String) : FS :=
  let rows := summaryRows fs ts
  (fs.write summaryCsvPath (renderSummaryCsv rows)).write execDocPath
    (renderDoc (execDoc rows ts))

/-! ## Stage 4: `create_zip_archive` -/

/-- The archive: walk the base folder and add every file under the path
relative to the base folder (`os.path.relpath` drops the leading
component). -/
def zipEntries (fs : FS) : List (FPath × String) :=
  (fs.walk [BASE_FOLDER]).flatMap (fun d =>
    (fs.filesIn d).map (fun e => ((d ++ [e.1]).drop 1, e.2)))

/-- Extraction of an archive: write every entry at its entry path into an
empty tree. -/
def extractZip (entries : List (FPath × String)) : FS :=
  entries.foldl (fun a e => a.write e.1 e.2) FS.empty

/-! ## The whole pipeline -/

/-- The filesystem after stages 1 and 2.  All `datetime.now()` calls of a
run are modelled by the single timestamp `ts` (the real calls differ by
fractions of a second; nothing below depends on more than the fixed
19-character shape of the formatted value). -/
def stage2FS (ts : String) : FS :=
  generate_phase_files (create_phase_folders FS.empty) ts

/-- The filesystem after stages 1, 2 and 3; the zip of stage 4 is the
value `zipEntries (pipelineFS ts)` and is written outside the tree. -/
def pipelineFS (ts : String) : FS :=
  generate_summary_report (stage2FS ts) ts

/-! ## Operation trace and fault model

The script wraps nothing in `try`/`except`: an `OSError` raised by any
directory creation or file write propagates out of `__main__` and kills
the run, leaving everything already written on disk.  We expose the
pipeline as the sequence of filesystem operations it performs and give a
semantics in which the operation at a chosen index raises. -/

/-- One filesystem side effect of the run. -/
inductive Op where
  | mkdirp (p : FPath)
  | write (p : FPath) (c : String)
deriving DecidableEq, Repr

/-- Apply one operation. -/
def applyOp (fs : FS) : Op → FS
  | .mkdirp p => fs.mkdirp p
  | .write p c => fs.write p c

/-- Apply a list of operations in order. -/
def runOps (fs : FS) (ops : List Op) : FS := ops.foldl applyOp fs

/-- The exact operation sequence of a run with timestamp `ts`: the six
directory creations of stage 1, the three writes per phase of stage 2,
and the two writes of stage 3 (whose contents are computed from the tree
as it stands after stage 2). -/
def pipelineOps (ts : String) : List Op :=
  (PHASES.map (fun phase => Op.mkdirp [BASE_FOLDER, phase]) ++
    [Op.mkdirp [BASE_FOLDER, "Supporting_Files"]]) ++
  PHASES.flatMap (fun phase =>
    [ Op.write (docxPath phase) (renderDoc (phaseDoc phase ts)),
      Op.write (xlsxPath phase) (renderWorkbook (phaseWorkbook phase)),
      Op.write (csvPath phase) phaseCsvContent ]) ++
  [ Op.write summaryCsvPath (renderSummaryCsv (summaryRows (stage2FS ts) ts)),
    Op.write execDocPath (renderDoc (execDoc (summaryRows (stage2FS ts) ts) ts)) ]

/-- Run the operations, but the operation at index `k` raises before
touching the filesystem: the result is the fatal error carrying the tree
exactly as the earlier operations left it. -/
def runFail (fs : FS) : List Op → Nat → Except FS FS
  | [], _ => .ok fs
  | _ :: _, 0 => .error fs
  | op :: rest, k + 1 => runFail (applyOp fs op) rest k

/-- Extract the `Count` column of the "Status Summary" sheet of a
workbook: the second cell of every data row that carries an int. -/
def countsOf (wb : List Sheet) : List Int :=
  match wb.find? (fun s => s.name = "Status Summary") with
  | some s => s.rows.tail.filterMap (fun r =>
      match r.getD 1 (Cell.str "") with
      | .int n => some n
      | .str _ => none)
  | none => []

/-- The timestamp-free part of a summary row. -/
def dropTS (r : SummaryRow) : String × Nat × ℚ :=
  (r.phase, r.filesN, r.totalSizeKB)

/-! ## Theorems -/

/-- Helper: the workbook built in the loop body never reads the loop
variable. -/
theorem phaseWorkbook_const (p : String) :
    phaseWorkbook p = [controlsSheet, statusSummarySheet, complianceTrendSheet] := rfl

/-- Helper: membership in the phase list, as a disjunction. -/
theorem mem_PHASES {p : String} (hp : p ∈ PHASES) :
    p = "Phase_1_Governance_Risk_SOC" ∨ p = "Phase_2_Technical_Controls_Monitoring" ∨
      p = "Phase_3_Threat_Intel_Automation" ∨ p = "Phase_4_Compliance_Audit" ∨
      p = "Phase_5_Awareness_Reporting" := by
  simpa [PHASES] using hp

set_option maxHeartbeats 1000000 in
/-- Helper: the files written by stages 1 and 2, in write order. -/
theorem stage2_files (ts : String) :
    (stage2FS ts).files =
      [ (["Cybersecurity_Templates_&_Dashboards", "Phase_1_Governance_Risk_SOC",
            "Phase_1_Governance_Risk_SOC_Template.docx"],
          renderDoc (phaseDoc "Phase_1_Governance_Risk_SOC" ts)),
        (["Cybersecurity_Templates_&_Dashboards", "Phase_1_Governance_Risk_SOC",
            "Phase_1_Governance_Risk_SOC_Dashboard.xlsx"],
          renderWorkbook (phaseWorkbook "Phase_1_Governance_Risk_SOC")),
        (["Cybersecurity_Templates_&_Dashboards", "Phase_1_Governance_Risk_SOC",
            "Phase_1_Governance_Risk_SOC_Data.csv"], phaseCsvContent),
        (["Cybersecurity_Templates_&_Dashboards", "Phase_2_Technical_Controls_Monitoring",
            "Phase_2_Technical_Controls_Monitoring_Template.docx"],
          renderDoc (phaseDoc "Phase_2_Technical_Controls_Monitoring" ts)),
        (["Cybersecurity_Templates_&_Dashboards", "Phase_2_Technical_Controls_Monitoring",
            "Phase_2_Technical_Controls_Monitoring_Dashboard.xlsx"],
          renderWorkbook (phaseWorkbook "Phase_2_Technical_Controls_Monitoring")),
        (["Cybersecurity_Templates_&_Dashboards", "Phase_2_Technical_Controls_Monitoring",
            "Phase_2_Technical_Controls_Monitoring_Data.csv"], phaseCsvContent),
        (["Cybersecurity_Templates_&_Dashboards", "Phase_3_Threat_Intel_Automation",
            "Phase_3_Threat_Intel_Automation_Template.docx"],
          renderDoc (phaseDoc "Phase_3_Threat_Intel_Automation" ts)),
        (["Cybersecurity_Templates_&_Dashboards", "Phase_3_Threat_Intel_Automation",
            "Phase_3_Threat_Intel_Automation_Dashboard.xlsx"],
          renderWorkbook (phaseWorkbook "Phase_3_Threat_Intel_Automation")),
        (["Cybersecurity_Templates_&_Dashboards", "Phase_3_Threat_Intel_Automation",
            "Phase_3_Threat_Intel_Automation_Data.csv"], phaseCsvContent),
        (["Cybersecurity_Templates_&_Dashboards", "Phase_4_Compliance_Audit",
            "Phase_4_Compliance_Audit_Template.docx"],
          renderDoc (phaseDoc "Phase_4_Compliance_Audit" ts)),
        (["Cybersecurity_Templates_&_Dashboards", "Phase_4_Compliance_Audit",
            "Phase_4_Compliance_Audit_Dashboard.xlsx"],
          renderWorkbook (phaseWorkbook "Phase_4_Compliance_Audit")),
        (["Cybersecurity_Templates_&_Dashboards", "Phase_4_Compliance_Audit",
            "Phase_4_Compliance_Audit_Data.csv"], phaseCsvContent),
        (["Cybersecurity_Templates_&_Dashboards", "Phase_5_Awareness_Reporting",
            "Phase_5_Awareness_Reporting_Template.docx"],
          renderDoc (phaseDoc "Phase_5_Awareness_Reporting" ts)),
        (["Cybersecurity_Templates_&_Dashboards", "Phase_5_Awareness_Reporting",
            "Phase_5_Awareness_Reporting_Dashboard.xlsx"],
          renderWorkbook (phaseWorkbook "Phase_5_Awareness_Reporting")),
        (["Cybersecurity_Templates_&_Dashboards", "Phase_5_Awareness_Reporting",
            "Phase_5_Awareness_Reporting_Data.csv"], phaseCsvContent) ] := by
  simp [stage2FS, generate_phase_files, create_phase_folders, FS.write, FS.mkdirp,
    FS.empty, PHASES, BASE_FOLDER, docxPath, xlsxPath, csvPath, List.range,
    List.range.loop]

set_option maxHeartbeats 1000000 in
/-- Helper: the directories created by stage 1 survive unchanged. -/
theorem stage2_dirs (ts : String) :
    (stage2FS ts).dirs =
      [ ["Cybersecurity_Templates_&_Dashboards"],
        ["Cybersecurity_Templates_&_Dashboards", "Phase_1_Governance_Risk_SOC"],
        ["Cybersecurity_Templates_&_Dashboards", "Phase_2_Technical_Controls_Monitoring"],
        ["Cybersecurity_Templates_&_Dashboards", "Phase_3_Threat_Intel_Automation"],
        ["Cybersecurity_Templates_&_Dashboards", "Phase_4_Compliance_Audit"],
        ["Cybersecurity_Templates_&_Dashboards", "Phase_5_Awareness_Reporting"],
        ["Cybersecurity_Templates_&_Dashboards", "Supporting_Files"] ] := by
  simp [stage2FS, generate_phase_files, create_phase_folders, FS.write, FS.mkdirp,
    FS.empty, PHASES, BASE_FOLDER, docxPath, xlsxPath, csvPath, List.range,
    List.range.loop]

/-- Helper: each phase directory of the post-generation tree holds
exactly the document, the workbook and the CSV, in write order. -/
theorem filesIn_stage2 (ts p : String) (hp : p ∈ PHASES) :
    (stage2FS ts).filesIn ["Cybersecurity_Templates_&_Dashboards", p] =
      [ (p ++ "_Template.docx", renderDoc (phaseDoc p ts)),
        (p ++ "_Dashboard.xlsx", renderWorkbook (phaseWorkbook p)),
        (p ++ "_Data.csv", phaseCsvContent) ] := by
  rcases mem_PHASES hp with rfl | rfl | rfl | rfl | rfl <;>
    simp [FS.filesIn, stage2_files, BASE_FOLDER, List.dropLast, List.getLast?]

set_option maxHeartbeats 1600000 in
/-- Helper: the CSV artifact of each phase is the rendering of
`SAMPLE_DATA`. -/
theorem stage2_lookup_csv (ts p : String) (hp : p ∈ PHASES) :
    (stage2FS ts).lookupFile (csvPath p) = some phaseCsvContent := by
  rcases mem_PHASES hp with rfl | rfl | rfl | rfl | rfl <;>
    simp [FS.lookupFile, stage2_files, BASE_FOLDER, csvPath, List.find?_cons_of_pos,
      List.find?_cons_of_neg]

/-- C1: for every configured phase, the CSV artifact written to that
phase's directory is exactly the written form of the in-memory
control-record table (a header row plus five control rows), and parsing
it back recovers a row list identical to the table. -/
theorem c1_csv_roundtrip (ts p : String) (hp : p ∈ PHASES) :
    (stage2FS ts).lookupFile (csvPath p) = some (csvRender SAMPLE_DATA) ∧
      csvParse (csvRender SAMPLE_DATA) = SAMPLE_DATA ∧
      SAMPLE_DATA.length = 6 := by
  refine ⟨stage2_lookup_csv ts p hp, ?_, rfl⟩
  decide

/-- Witness for C1 at the first phase. -/
theorem c1_csv_roundtrip_witness :
    "Phase_1_Governance_Risk_SOC" ∈ PHASES ∧
      ((stage2FS "2025-11-05 10:00:00").lookupFile
          (csvPath "Phase_1_Governance_Risk_SOC") = some (csvRender SAMPLE_DATA) ∧
        csvParse (csvRender SAMPLE_DATA) = SAMPLE_DATA ∧
        SAMPLE_DATA.length = 6) :=
  ⟨by decide, c1_csv_roundtrip "2025-11-05 10:00:00" "Phase_1_Governance_Risk_SOC" (by decide)⟩

/-- C2: in every generated workbook, the counts of the Status Summary
sheet sum to the number of control records, which is 5. -/
theorem c2_counts_conservation (p : String) (_hp : p ∈ PHASES) :
    (countsOf (phaseWorkbook p)).sum = (SAMPLE_DATA.tail.length : Int) ∧
      SAMPLE_DATA.tail.length = 5 := by
  rw [phaseWorkbook_const]
  exact ⟨by decide, by decide⟩

/-- Witness for C2 at the first phase. -/
theorem c2_counts_conservation_witness :
    "Phase_1_Governance_Risk_SOC" ∈ PHASES ∧
      ((countsOf (phaseWorkbook "Phase_1_Governance_Risk_SOC")).sum =
          (SAMPLE_DATA.tail.length : Int) ∧
        SAMPLE_DATA.tail.length = 5) :=
  ⟨by decide, c2_counts_conservation "Phase_1_Governance_Risk_SOC" (by decide)⟩

/-- C9: the CSV artifact is a function of the fixed control table only:
any two phases receive byte-identical CSV files. -/
theorem c9_csv_phase_independent (ts p1 p2 : String)
    (h1 : p1 ∈ PHASES) (h2 : p2 ∈ PHASES) :
    (stage2FS ts).lookupFile (csvPath p1) = (stage2FS ts).lookupFile (csvPath p2) := by
  rw [stage2_lookup_csv ts p1 h1, stage2_lookup_csv ts p2 h2]

/-- Witness for C9 at two distinct phases. -/
theorem c9_csv_phase_independent_witness :
    "Phase_1_Governance_Risk_SOC" ∈ PHASES ∧
      "Phase_4_Compliance_Audit" ∈ PHASES ∧
      (stage2FS "ts").lookupFile (csvPath "Phase_1_Governance_Risk_SOC") =
        (stage2FS "ts").lookupFile (csvPath "Phase_4_Compliance_Audit") :=
  ⟨by decide, by decide,
    c9_csv_phase_independent "ts" "Phase_1_Governance_Risk_SOC"
      "Phase_4_Compliance_Audit" (by decide) (by decide)⟩

/-- C10: the data rows of every Status Summary sheet are emitted in
non-increasing order of count. -/
theorem c10_counts_sorted (p : String) (_hp : p ∈ PHASES) :
    List.Chain' (fun a b => b ≤ a) (countsOf (phaseWorkbook p)) := by
  rw [phaseWorkbook_const]
  have h : countsOf [controlsSheet, statusSummarySheet, complianceTrendSheet] =
      [2, 1, 1, 1] := by decide
  rw [h]
  norm_num [List.chain'_cons, List.chain'_singleton]

/-- Witness for C10 at the first phase. -/
theorem c10_counts_sorted_witness :
    "Phase_1_Governance_Risk_SOC" ∈ PHASES ∧
      List.Chain' (fun a b => b ≤ a)
        (countsOf (phaseWorkbook "Phase_1_Governance_Risk_SOC")) :=
  ⟨by decide, c10_counts_sorted "Phase_1_Governance_Risk_SOC" (by decide)⟩

/-- C3: after the artifact-generation stage, each phase directory holds
exactly three files, named `P_Template.docx`, `P_Dashboard.xlsx` and
`P_Data.csv`. -/
theorem c3_three_files (ts p : String) (hp : p ∈ PHASES) :
    ((stage2FS ts).filesIn [BASE_FOLDER, p]).map Prod.fst =
      [p ++ "_Template.docx", p ++ "_Dashboard.xlsx", p ++ "_Data.csv"] := by
  simp only [BASE_FOLDER]
  rw [filesIn_stage2 ts p hp]
  rfl

/-- Witness for C3 at the first phase. -/
theorem c3_three_files_witness :
    "Phase_1_Governance_Risk_SOC" ∈ PHASES ∧
      ((stage2FS "ts").filesIn [BASE_FOLDER, "Phase_1_Governance_Risk_SOC"]).map Prod.fst =
        [ "Phase_1_Governance_Risk_SOC" ++ "_Template.docx",
          "Phase_1_Governance_Risk_SOC" ++ "_Dashboard.xlsx",
          "Phase_1_Governance_Risk_SOC" ++ "_Data.csv" ] :=
  ⟨by decide, c3_three_files "ts" "Phase_1_Governance_Risk_SOC" (by decide)⟩

/-- C6: every generated workbook is exactly three sheets, named
"Controls" (the control records verbatim, columns auto-sized to maximal
content length plus two), "Status Summary" (one (status, count) row per
distinct status, a pie chart at D2 and a bar chart at D20, both with
the count column B1:B5 as data and A2:A5 as categories), and
"Compliance Trend" (the trend records and a line chart at D4 over
B1:B7 and A2:A7). -/
theorem c6_workbook_layout (p : String) (_hp : p ∈ PHASES) :
    (phaseWorkbook p).map Sheet.name = ["Controls", "Status Summary", "Compliance Trend"] ∧
    phaseWorkbook p =
      [ { name := "Controls",
          rows := SAMPLE_DATA.map (fun r => r.map Cell.str),
          colWidths := [12, 39, 14, 13, 15],
          charts := [] },
        { name := "Status Summary",
          rows := [ [.str "Status", .str "Count"],
                    [.str "Completed", .int 2],
                    [.str "Planned", .int 1],
                    [.str "In Progress", .int 1],
                    [.str "Active", .int 1] ],
          colWidths := [],
          charts :=
            [ ⟨⟨.pieChart, ⟨"Status Summary", 2, 1, 2, 5⟩, ⟨"Status Summary", 1, 2, 1, 5⟩,
                "Control Status Distribution", none⟩, "D2"⟩,
              ⟨⟨.barChart, ⟨"Status Summary", 2, 1, 2, 5⟩, ⟨"Status Summary", 1, 2, 1, 5⟩,
                "Control Status by Count", none⟩, "D20"⟩ ] },
        { name := "Compliance Trend",
          rows := TREND_DATA,
          colWidths := [],
          charts :=
            [ ⟨⟨.lineChart, ⟨"Compliance Trend", 2, 1, 2, 7⟩, ⟨"Compliance Trend", 1, 2, 1, 7⟩,
                "Monthly Compliance Trend", some "Compliance (%)"⟩, "D4"⟩ ] } ] ∧
    controlsSheet.colWidths = autoWidths controlsSheet.rows ∧
    (∀ s ∈ statuses, s ∈ statusCounts.map Prod.fst) ∧
    (∀ q ∈ statusCounts, q.1 ∈ statuses ∧ q.2 = statuses.count q.1) ∧
    (statusCounts.map Prod.fst).Nodup := by
  rw [phaseWorkbook_const]
  refine ⟨by decide, by decide, rfl, by decide, by decide, by decide⟩

/-- Witness for C6 at the first phase. -/
theorem c6_workbook_layout_witness :
    "Phase_1_Governance_Risk_SOC" ∈ PHASES ∧
      (phaseWorkbook "Phase_1_Governance_Risk_SOC").map Sheet.name =
        ["Controls", "Status Summary", "Compliance Trend"] :=
  ⟨by decide, (c6_workbook_layout "Phase_1_Governance_Risk_SOC" (by decide)).1⟩

/-- Helper: writing a file never changes the directory set. -/
theorem FS.write_dirs (fs : FS) (p : FPath) (c : String) :
    (fs.write p c).dirs = fs.dirs := by
  rw [FS.write]
  split <;> rfl

/-- Helper: the traversal depends on the filesystem only through its
directory set. -/
theorem walkAux_congr (fs1 fs2 : FS) (h : fs1.dirs = fs2.dirs) :
    ∀ n d, fs1.walkAux n d = fs2.walkAux n d := by
  intro n
  induction n with
  | zero => intro d; rfl
  | succ n ih =>
    intro d
    have hf : fs1.walkAux n = fs2.walkAux n := funext ih
    simp [FS.walkAux, FS.childDirs, h, hf]

/-- Helper: `os.walk` on the tree of stage 2: the base folder first, then
its subdirectories in creation order. -/
theorem stage2_walk (ts : String) :
    (stage2FS ts).walk [BASE_FOLDER] =
      [ ["Cybersecurity_Templates_&_Dashboards"],
        ["Cybersecurity_Templates_&_Dashboards", "Phase_1_Governance_Risk_SOC"],
        ["Cybersecurity_Templates_&_Dashboards", "Phase_2_Technical_Controls_Monitoring"],
        ["Cybersecurity_Templates_&_Dashboards", "Phase_3_Threat_Intel_Automation"],
        ["Cybersecurity_Templates_&_Dashboards", "Phase_4_Compliance_Audit"],
        ["Cybersecurity_Templates_&_Dashboards", "Phase_5_Awareness_Reporting"],
        ["Cybersecurity_Templates_&_Dashboards", "Supporting_Files"] ] := by
  have h := walkAux_congr (stage2FS ts)
    ⟨[ ["Cybersecurity_Templates_&_Dashboards"],
       ["Cybersecurity_Templates_&_Dashboards", "Phase_1_Governance_Risk_SOC"],
       ["Cybersecurity_Templates_&_Dashboards", "Phase_2_Technical_Controls_Monitoring"],
       ["Cybersecurity_Templates_&_Dashboards", "Phase_3_Threat_Intel_Automation"],
       ["Cybersecurity_Templates_&_Dashboards", "Phase_4_Compliance_Audit"],
       ["Cybersecurity_Templates_&_Dashboards", "Phase_5_Awareness_Reporting"],
       ["Cybersecurity_Templates_&_Dashboards", "Supporting_Files"] ], []⟩
    (by rw [stage2_dirs])
  rw [FS.walk, stage2_dirs, h]
  decide

/-- Helper: right after stage 2 the base folder itself holds no files. -/
theorem filesIn_stage2_base (ts : String) :
    (stage2FS ts).filesIn ["Cybersecurity_Templates_&_Dashboards"] = [] := by
  simp [FS.filesIn, stage2_files, List.dropLast]

/-- Helper: right after stage 2 the supporting-files folder is empty. -/
theorem filesIn_stage2_sup (ts : String) :
    (stage2FS ts).filesIn
      ["Cybersecurity_Templates_&_Dashboards", "Supporting_Files"] = [] := by
  simp [FS.filesIn, stage2_files, List.dropLast]

/-- Helper: every phase directory's path string contains `"Phase_"`. -/
theorem contains_phase (p : String) (hp : p ∈ PHASES) :
    containsChars ['P', 'h', 'a', 's', 'e', '_']
      (pathStr ["Cybersecurity_Templates_&_Dashboards", p]).data = true := by
  rcases mem_PHASES hp with rfl | rfl | rfl | rfl | rfl <;> decide

/-- Helper: the summary table computed by stage 3 on the stage-2 tree is
one row per configured phase, in configuration order. -/
theorem summaryRows_stage2 (ts u : String) :
    summaryRows (stage2FS ts) u =
      PHASES.map (fun p =>
        { phase := p, filesN := 3,
          totalSizeKB :=
            round2 (dirSizeKB (stage2FS ts) ["Cybersecurity_Templates_&_Dashboards", p]),
          lastUpdated := u }) := by
  rw [summaryRows, stage2_walk]
  simp [List.filterMap_cons, filesIn_stage2_base, filesIn_stage2_sup,
    filesIn_stage2 ts "Phase_1_Governance_Risk_SOC" (by decide),
    filesIn_stage2 ts "Phase_2_Technical_Controls_Monitoring" (by decide),
    filesIn_stage2 ts "Phase_3_Threat_Intel_Automation" (by decide),
    filesIn_stage2 ts "Phase_4_Compliance_Audit" (by decide),
    filesIn_stage2 ts "Phase_5_Awareness_Reporting" (by decide),
    contains_phase "Phase_1_Governance_Risk_SOC" (by decide),
    contains_phase "Phase_2_Technical_Controls_Monitoring" (by decide),
    contains_phase "Phase_3_Threat_Intel_Automation" (by decide),
    contains_phase "Phase_4_Compliance_Audit" (by decide),
    contains_phase "Phase_5_Awareness_Reporting" (by decide),
    PHASES, BASE_FOLDER, List.getLast?]

/-- C5: the aggregate summary table has exactly one row per phase
directory (each of which holds at least one file), and each row records
the directory's file count, its total size in kilobytes rounded to two
decimal places, and the current timestamp. -/
theorem c5_summary_rows (ts u : String) :
    (summaryRows (stage2FS ts) u).map SummaryRow.phase = PHASES ∧
    (∀ p ∈ PHASES, (stage2FS ts).filesIn [BASE_FOLDER, p] ≠ []) ∧
    summaryRows (stage2FS ts) u =
      PHASES.map (fun p =>
        { phase := p,
          filesN := ((stage2FS ts).filesIn [BASE_FOLDER, p]).length,
          totalSizeKB := round2 (dirSizeKB (stage2FS ts) [BASE_FOLDER, p]),
          lastUpdated := u }) := by
  simp only [BASE_FOLDER]
  refine ⟨?_, ?_, ?_⟩
  · rw [summaryRows_stage2]
    simp [PHASES]
  · intro p hp
    rw [filesIn_stage2 ts p hp]
    simp
  · rw [summaryRows_stage2]
    refine List.map_congr_left ?_
    intro p hp
    rw [filesIn_stage2 ts p hp]
    rfl

set_option maxHeartbeats 1000000 in
/-- Helper: the files of the full tree after stage 3: the fifteen phase
artifacts, then the aggregate CSV, then the executive summary. -/
theorem pipeline_files (ts : String) :
    (pipelineFS ts).files =
      (stage2FS ts).files ++
        [ (["Cybersecurity_Templates_&_Dashboards", "Supporting_Files", "export_summary.csv"],
            renderSummaryCsv (summaryRows (stage2FS ts) ts)),
          (["Cybersecurity_Templates_&_Dashboards", "Cybersecurity_Executive_Summary.docx"],
            renderDoc (execDoc (summaryRows (stage2FS ts) ts) ts)) ] := by
  simp [pipelineFS, generate_summary_report, FS.write, stage2_files,
    summaryCsvPath, execDocPath, BASE_FOLDER]

/-- Helper: stage 3 creates no directories. -/
theorem pipeline_dirs (ts : String) :
    (pipelineFS ts).dirs = (stage2FS ts).dirs := by
  simp [pipelineFS, generate_summary_report, FS.write_dirs]

/-- Helper: `os.walk` on the final tree visits the same directories as on
the stage-2 tree. -/
theorem pipeline_walk (ts : String) :
    (pipelineFS ts).walk [BASE_FOLDER] =
      [ ["Cybersecurity_Templates_&_Dashboards"],
        ["Cybersecurity_Templates_&_Dashboards", "Phase_1_Governance_Risk_SOC"],
        ["Cybersecurity_Templates_&_Dashboards", "Phase_2_Technical_Controls_Monitoring"],
        ["Cybersecurity_Templates_&_Dashboards", "Phase_3_Threat_Intel_Automation"],
        ["Cybersecurity_Templates_&_Dashboards", "Phase_4_Compliance_Audit"],
        ["Cybersecurity_Templates_&_Dashboards", "Phase_5_Awareness_Reporting"],
        ["Cybersecurity_Templates_&_Dashboards", "Supporting_Files"] ] := by
  have h := walkAux_congr (pipelineFS ts) (stage2FS ts) (pipeline_dirs ts)
  rw [FS.walk, pipeline_dirs, h, ← FS.walk]
  exact stage2_walk ts

set_option maxHeartbeats 1600000 in
/-- Helper: stage 3 does not touch the per-phase CSV artifacts. -/
theorem pipeline_lookup_csv (ts p : String) (hp : p ∈ PHASES) :
    (pipelineFS ts).lookupFile (csvPath p) = some phaseCsvContent := by
  rcases mem_PHASES hp with rfl | rfl | rfl | rfl | rfl <;>
    simp [FS.lookupFile, pipeline_files, stage2_files, BASE_FOLDER, csvPath,
      List.find?_cons_of_pos, List.find?_cons_of_neg]

set_option maxHeartbeats 1600000 in
/-- Helper: the archive entries, in walk order: the executive summary at
the tree root first, then the fifteen phase artifacts, then the
aggregate CSV, every entry path relative to the base folder. -/
theorem zipEntries_pipeline (ts : String) :
    zipEntries (pipelineFS ts) =
      (["Cybersecurity_Executive_Summary.docx"],
          renderDoc (execDoc (summaryRows (stage2FS ts) ts) ts)) ::
        ( [ (["Phase_1_Governance_Risk_SOC", "Phase_1_Governance_Risk_SOC_Template.docx"],
              renderDoc (phaseDoc "Phase_1_Governance_Risk_SOC" ts)),
            (["Phase_1_Governance_Risk_SOC", "Phase_1_Governance_Risk_SOC_Dashboard.xlsx"],
              renderWorkbook (phaseWorkbook "Phase_1_Governance_Risk_SOC")),
            (["Phase_1_Governance_Risk_SOC", "Phase_1_Governance_Risk_SOC_Data.csv"],
              phaseCsvContent),
            (["Phase_2_Technical_Controls_Monitoring",
                "Phase_2_Technical_Controls_Monitoring_Template.docx"],
              renderDoc (phaseDoc "Phase_2_Technical_Controls_Monitoring" ts)),
            (["Phase_2_Technical_Controls_Monitoring",
                "Phase_2_Technical_Controls_Monitoring_Dashboard.xlsx"],
              renderWorkbook (phaseWorkbook "Phase_2_Technical_Controls_Monitoring")),
            (["Phase_2_Technical_Controls_Monitoring",
                "Phase_2_Technical_Controls_Monitoring_Data.csv"], phaseCsvContent),
            (["Phase_3_Threat_Intel_Automation",
                "Phase_3_Threat_Intel_Automation_Template.docx"],
              renderDoc (phaseDoc "Phase_3_Threat_Intel_Automation" ts)),
            (["Phase_3_Threat_Intel_Automation",
                "Phase_3_Threat_Intel_Automation_Dashboard.xlsx"],
              renderWorkbook (phaseWorkbook "Phase_3_Threat_Intel_Automation")),
            (["Phase_3_Threat_Intel_Automation", "Phase_3_Threat_Intel_Automation_Data.csv"],
              phaseCsvContent),
            (["Phase_4_Compliance_Audit", "Phase_4_Compliance_Audit_Template.docx"],
              renderDoc (phaseDoc "Phase_4_Compliance_Audit" ts)),
            (["Phase_4_Compliance_Audit", "Phase_4_Compliance_Audit_Dashboard.xlsx"],
              renderWorkbook (phaseWorkbook "Phase_4_Compliance_Audit")),
            (["Phase_4_Compliance_Audit", "Phase_4_Compliance_Audit_Data.csv"],
              phaseCsvContent),
            (["Phase_5_Awareness_Reporting", "Phase_5_Awareness_Reporting_Template.docx"],
              renderDoc (phaseDoc "Phase_5_Awareness_Reporting" ts)),
            (["Phase_5_Awareness_Reporting", "Phase_5_Awareness_Reporting_Dashboard.xlsx"],
              renderWorkbook (phaseWorkbook "Phase_5_Awareness_Reporting")),
            (["Phase_5_Awareness_Reporting", "Phase_5_Awareness_Reporting_Data.csv"],
              phaseCsvContent),
            (["Supporting_Files", "export_summary.csv"],
              renderSummaryCsv (summaryRows (stage2FS ts) ts)) ] :
          List (FPath × String)) := by
  rw [zipEntries, pipeline_walk]
  simp [FS.filesIn, pipeline_files, stage2_files, List.dropLast, List.getLast?,
    List.drop]

/-- Helper: the rendered length of a phase document depends on the
timestamp only through the timestamp's length. -/
theorem renderDoc_phaseDoc_length (p t1 t2 : String) (h : t1.length = t2.length) :
    (renderDoc (phaseDoc p t1)).length = (renderDoc (phaseDoc p t2)).length := by
  simp [renderDoc, phaseDoc, renderBlock, String.length_append]
  omega

/-- Helper: a phase directory's total size depends on the timestamp only
through the timestamp's length. -/
theorem dirSizeKB_congr (t1 t2 p : String) (h : t1.length = t2.length)
    (hp : p ∈ PHASES) :
    dirSizeKB (stage2FS t1) ["Cybersecurity_Templates_&_Dashboards", p] =
      dirSizeKB (stage2FS t2) ["Cybersecurity_Templates_&_Dashboards", p] := by
  simp only [dirSizeKB]
  rw [filesIn_stage2 t1 p hp, filesIn_stage2 t2 p hp]
  simp [renderDoc_phaseDoc_length p t1 t2 h]

/-- Helper: the archive entry paths, a timestamp-independent list. -/
theorem zip_paths (ts : String) :
    (zipEntries (pipelineFS ts)).map Prod.fst =
      [ ["Cybersecurity_Executive_Summary.docx"],
        ["Phase_1_Governance_Risk_SOC", "Phase_1_Governance_Risk_SOC_Template.docx"],
        ["Phase_1_Governance_Risk_SOC", "Phase_1_Governance_Risk_SOC_Dashboard.xlsx"],
        ["Phase_1_Governance_Risk_SOC", "Phase_1_Governance_Risk_SOC_Data.csv"],
        ["Phase_2_Technical_Controls_Monitoring",
          "Phase_2_Technical_Controls_Monitoring_Template.docx"],
        ["Phase_2_Technical_Controls_Monitoring",
          "Phase_2_Technical_Controls_Monitoring_Dashboard.xlsx"],
        ["Phase_2_Technical_Controls_Monitoring",
          "Phase_2_Technical_Controls_Monitoring_Data.csv"],
        ["Phase_3_Threat_Intel_Automation", "Phase_3_Threat_Intel_Automation_Template.docx"],
        ["Phase_3_Threat_Intel_Automation", "Phase_3_Threat_Intel_Automation_Dashboard.xlsx"],
        ["Phase_3_Threat_Intel_Automation", "Phase_3_Threat_Intel_Automation_Data.csv"],
        ["Phase_4_Compliance_Audit", "Phase_4_Compliance_Audit_Template.docx"],
        ["Phase_4_Compliance_Audit", "Phase_4_Compliance_Audit_Dashboard.xlsx"],
        ["Phase_4_Compliance_Audit", "Phase_4_Compliance_Audit_Data.csv"],
        ["Phase_5_Awareness_Reporting", "Phase_5_Awareness_Reporting_Template.docx"],
        ["Phase_5_Awareness_Reporting", "Phase_5_Awareness_Reporting_Dashboard.xlsx"],
        ["Phase_5_Awareness_Reporting", "Phase_5_Awareness_Reporting_Data.csv"],
        ["Supporting_Files", "export_summary.csv"] ] := by
  rw [zipEntries_pipeline]
  rfl

/-- C7: two runs of the pipeline with timestamps of the fixed 19-character
`%Y-%m-%d %H:%M:%S` shape produce byte-identical per-phase CSV artifacts,
identical summary-CSV tables once the timestamp-valued field is dropped,
and identical archive entry-path lists. -/
theorem c7_run_determinism (t1 t2 : String) (h1 : t1.length = 19)
    (h2 : t2.length = 19) :
    (∀ p ∈ PHASES,
      (pipelineFS t1).lookupFile (csvPath p) = (pipelineFS t2).lookupFile (csvPath p)) ∧
    (summaryRows (stage2FS t1) t1).map dropTS =
      (summaryRows (stage2FS t2) t2).map dropTS ∧
    (zipEntries (pipelineFS t1)).map Prod.fst =
      (zipEntries (pipelineFS t2)).map Prod.fst := by
  have h : t1.length = t2.length := h1.trans h2.symm
  refine ⟨?_, ?_, ?_⟩
  · intro p hp
    rw [pipeline_lookup_csv t1 p hp, pipeline_lookup_csv t2 p hp]
  · rw [summaryRows_stage2 t1 t1, summaryRows_stage2 t2 t2]
    simp only [List.map_map]
    refine List.map_congr_left ?_
    intro p hp
    simp [dropTS, dirSizeKB_congr t1 t2 p h hp]
  · rw [zip_paths t1, zip_paths t2]

/-- Witness for C7 at two distinct 19-character timestamps. -/
theorem c7_run_determinism_witness :
    ("2025-11-05 10:00:00" : String).length = 19 ∧
      ("2026-01-02 03:04:05" : String).length = 19 ∧
      ((∀ p ∈ PHASES,
          (pipelineFS "2025-11-05 10:00:00").lookupFile (csvPath p) =
            (pipelineFS "2026-01-02 03:04:05").lookupFile (csvPath p)) ∧
        (summaryRows (stage2FS "2025-11-05 10:00:00") "2025-11-05 10:00:00").map dropTS =
          (summaryRows (stage2FS "2026-01-02 03:04:05") "2026-01-02 03:04:05").map dropTS ∧
        (zipEntries (pipelineFS "2025-11-05 10:00:00")).map Prod.fst =
          (zipEntries (pipelineFS "2026-01-02 03:04:05")).map Prod.fst) :=
  ⟨by decide, by decide,
    c7_run_determinism "2025-11-05 10:00:00" "2026-01-02 03:04:05" (by decide) (by decide)⟩

set_option maxHeartbeats 1600000 in
/-- Helper: extracting the archive into an empty tree registers exactly
the archive entries, in order. -/
theorem extract_state (ts : String) :
    extractZip (zipEntries (pipelineFS ts)) = FS.mk [] (zipEntries (pipelineFS ts)) := by
  rw [zipEntries_pipeline]
  simp [extractZip, FS.write, FS.empty]

set_option maxHeartbeats 3200000 in
/-- C4: the archive holds one entry per file of the output tree, at the
file's path relative to the base folder; extraction writes exactly the
entries back, and every file of the tree is reproduced byte-identically
at its relative path. -/
theorem c4_zip_roundtrip (ts : String) :
    (∀ e ∈ (pipelineFS ts).files, (e.1.drop 1, e.2) ∈ zipEntries (pipelineFS ts)) ∧
    (extractZip (zipEntries (pipelineFS ts))).files = zipEntries (pipelineFS ts) ∧
    (∀ e ∈ (pipelineFS ts).files,
      (extractZip (zipEntries (pipelineFS ts))).lookupFile (e.1.drop 1) = some e.2) := by
  refine ⟨?_, ?_, ?_⟩
  · intro e he
    rw [pipeline_files, stage2_files] at he
    simp only [List.cons_append, List.nil_append] at he
    rw [zipEntries_pipeline]
    fin_cases he <;> simp
  · rw [extract_state]
  · intro e he
    rw [pipeline_files, stage2_files] at he
    simp only [List.cons_append, List.nil_append] at he
    rw [extract_state, zipEntries_pipeline]
    fin_cases he <;>
      simp [FS.lookupFile, List.find?_cons_of_pos, List.find?_cons_of_neg]

/-- Helper: a run that dies at operation `k` is a fatal error carrying
exactly the effects of the operations before `k`. -/
theorem runFail_eq_error :
    ∀ (ops : List Op) (k : Nat) (fs : FS), k < ops.length →
      runFail fs ops k = .error (runOps fs (ops.take k)) := by
  intro ops
  induction ops with
  | nil => intro k fs hk; simp at hk
  | cons op rest ih =>
    intro k fs hk
    cases k with
    | zero => simp [runFail, runOps]
    | succ k =>
      have h := ih k (applyOp fs op) (by simpa using hk)
      simpa [runFail, runOps, List.take_succ_cons] using h

set_option maxHeartbeats 1600000 in
/-- C8: the operation trace of a run reproduces the pipeline exactly, and
if the filesystem operation at any index `k` raises, the run terminates
as a fatal error whose filesystem state is exactly the writes before
`k` — nothing is caught, retried, or cleaned up. -/
theorem c8_fail_fast (ts : String) (k : Nat) (hk : k < (pipelineOps ts).length) :
    runFail FS.empty (pipelineOps ts) k =
      Except.error (runOps FS.empty ((pipelineOps ts).take k)) ∧
    runOps FS.empty (pipelineOps ts) = pipelineFS ts := by
  refine ⟨runFail_eq_error _ k _ hk, ?_⟩
  simp [runOps, pipelineOps, pipelineFS, generate_summary_report, stage2FS,
    generate_phase_files, create_phase_folders, applyOp, FS.write, FS.mkdirp, FS.empty,
    PHASES, BASE_FOLDER, docxPath, xlsxPath, csvPath, summaryCsvPath, execDocPath,
    List.range, List.range.loop]

/-- Witness for C8: the fourth operation of a concrete run fails. -/
theorem c8_fail_fast_witness :
    3 < (pipelineOps "2025-11-05 10:00:00").length ∧
      (runFail FS.empty (pipelineOps "2025-11-05 10:00:00") 3 =
          Except.error
            (runOps FS.empty ((pipelineOps "2025-11-05 10:00:00").take 3)) ∧
        runOps FS.empty (pipelineOps "2025-11-05 10:00:00") =
          pipelineFS "2025-11-05 10:00:00") :=
  ⟨by decide, c8_fail_fast "2025-11-05 10:00:00" 3 (by decide)⟩

end CyberTemplates
